import Mathlib

/-!
Verification development for the browserbase client library.

The Python sources under `browserbase/` are shallowly embedded below:
pure computations become Lean functions, the mutable session object
becomes an explicit `SessionState` record threaded through each
operation, Python `datetime` values become integers on an abstract
timeline (seconds), and each fallible operation returns `Except`.
HTTP transport and pydantic JSON parsing are external collaborators of
the library; a network round trip is modelled by the `HttpResult` type,
which records whether the transport reported a non-success status
(`raise_for_status` raising) and, otherwise, whether the body parsed
into a `SessionResponse`.
-/

namespace Browserbase

/-- Session status literal from `api_models.SESSIONSTATUS`. -/
inductive SessionStatus where
  | NEW
  | CREATED
  | ERROR
  | RUNNING
  | REQUEST_RELEASE
  | RELEASING
  | COMPLETED
  | TIMED_OUT
  deriving DecidableEq, Repr

/-- Browser type literal from `api_models.BROWSERTYPE`. -/
inductive BrowserType where
  | chrome
  | firefox
  | edge
  | safari
  deriving DecidableEq, Repr

/-- Device type literal from `api_models.DEVICETYPE`. -/
inductive DeviceType where
  | desktop
  | mobile
  deriving DecidableEq, Repr

/-- Operating system literal from `api_models.OPERATINGSYSTEM`. -/
inductive OperatingSystem where
  | windows
  | macos
  | linux
  | ios
  | android
  deriving DecidableEq, Repr

/-- Python `datetime` values, modelled as integer seconds on an abstract
timeline. Subtraction of two datetimes yields a `timedelta`, modelled as
an integer number of seconds. -/
abbrev Datetime := Int

/-- Python `datetime.min`, the minimum representable timestamp, used by
`BaseSession.created_at` as its sentinel. On the abstract timeline it is
pinned at 0; all server-reported timestamps are reachable values of the
same type. -/
def datetime_min : Datetime := 0

/-- Screen bounds from `api_models.Screen`. -/
structure Screen where
  max_height : Option Int := none
  max_width : Option Int := none
  min_height : Option Int := none
  min_width : Option Int := none
  deriving DecidableEq, Repr

/-- Fingerprint emulation options from `api_models.Fingerprint`. -/
structure Fingerprint where
  browser_list_query : Option String := none
  http_version : Option Int := none
  browsers : Option (List BrowserType) := none
  devices : Option (List DeviceType) := none
  locales : Option (List String) := none
  operating_systems : Option (List OperatingSystem) := none
  screen : Option Screen := none
  deriving DecidableEq, Repr

/-- Viewport dimensions from `api_models.Viewport`. -/
structure Viewport where
  width : Option Int := none
  height : Option Int := none
  deriving DecidableEq, Repr

/-- Nested browser settings from `api_models.BrowserSettings`. -/
structure BrowserSettings where
  fingerprint : Option Fingerprint := none
  viewport : Option Viewport := none
  deriving DecidableEq, Repr

/-- Declared fields of `api_models.CreateSessionOptions`. Note the model
has no top-level `viewport` or `fingerprint` field: those are only
constructor parameters, folded into `browser_settings`. -/
structure CreateSessionOptions where
  project_id : Option String := none
  extension_id : Option String := none
  browser_settings : Option BrowserSettings := none
  timeout : Option Int := none
  keep_alive : Option Bool := none
  status : Option SessionStatus := none
  deriving DecidableEq, Repr

/-- Constructor `CreateSessionOptions.__init__`: pulls out `viewport` and
`fingerprint` when supplied and wraps them in a `BrowserSettings` value
(copying a supplied `browser_settings` and overwriting only the supplied
slots), before the remaining keyword arguments populate the declared
fields. A pydantic model instance is always truthy, so the Python
`any((viewport, fingerprint))` test is `isSome` on either argument and
`elif browser_settings:` is `isSome` on that argument. -/
def CreateSessionOptions.init
    (viewport : Option Viewport)
    (fingerprint : Option Fingerprint)
    (browser_settings : Option BrowserSettings)
    (project_id : Option String)
    (extension_id : Option String)
    (timeout : Option Int)
    (keep_alive : Option Bool)
    (status : Option SessionStatus) : CreateSessionOptions :=
  let folded : Option BrowserSettings :=
    if viewport.isSome || fingerprint.isSome then
      let base := browser_settings.getD {}
      let base := match viewport with
        | some v => { base with viewport := some v }
        | none => base
      let base := match fingerprint with
        | some f => { base with fingerprint := some f }
        | none => base
      some base
    else
      browser_settings
  { project_id := project_id
    extension_id := extension_id
    browser_settings := folded
    timeout := timeout
    keep_alive := keep_alive
    status := status }

/-- Server session payload from `api_models.SessionResponse`. The
`avg_cpu_usage` float is modelled as a rational; no claim depends on it. -/
structure SessionResponse where
  id : String
  project_id : String
  created_at : Datetime
  started_at : Datetime
  updated_at : Option Datetime := none
  ended_at : Option Datetime := none
  status : Option SessionStatus := none
  task_id : Option String := none
  proxy_bytes : Option Int := none
  expires_at : Option Datetime := none
  avg_cpu_usage : Option Rat := none
  memory_usage : Option Int := none
  details : Option String := none
  logs : Option String := none
  deriving DecidableEq, Repr

/-- Hexadecimal digit test used by the UUID validator. -/
def hex_digit (c : Char) : Bool :=
  c.isDigit || ('a' ≤ c && c ≤ 'f') || ('A' ≤ c && c ≤ 'F')

/-- Characters removed by Python `str.strip` with argument "\x7b\x7d". -/
def brace_char (c : Char) : Bool :=
  c = '{' || c = '}'

/-- Removes every occurrence of the marker `urn:`, scanning left to
right, as the Python `str.replace` call with an empty replacement does. -/
def drop_urn_marker : List Char → List Char
  | 'u' :: 'r' :: 'n' :: ':' :: rest => drop_urn_marker rest
  | c :: rest => c :: drop_urn_marker rest
  | [] => []

/-- Removes every occurrence of the marker `uuid:`, scanning left to
right, as the Python `str.replace` call with an empty replacement does. -/
def drop_uuid_marker : List Char → List Char
  | 'u' :: 'u' :: 'i' :: 'd' :: ':' :: rest => drop_uuid_marker rest
  | c :: rest => c :: drop_uuid_marker rest
  | [] => []

/-- Models CPython `uuid.UUID(hex)` string validation on its canonical
forms: drop `urn:` and `uuid:` markers, strip surrounding braces, drop
hyphens, and require exactly 32 hexadecimal digits. -/
def uuid_ok (s : String) : Bool :=
  let h := drop_uuid_marker (drop_urn_marker s.toList)
  let h := ((h.dropWhile brace_char).reverse.dropWhile brace_char).reverse
  let h := h.filter fun c => !(c == '-')
  h.length == 32 && h.all hex_digit

/-- Python truthiness of an optional string: `None` and the empty string
are falsy, every other string is truthy. -/
def py_truthy : Option String → Bool
  | none => false
  | some s => !s.isEmpty

/-- Python `a or b` on optional strings: keeps `a` when truthy,
otherwise yields `b` unchanged. -/
def py_or (a b : Option String) : Option String :=
  if py_truthy a then a else b

/-- Message raised when no API key is resolvable (`core.py`). -/
def missing_api_key_message : String :=
  "The Browserbase API key was not passed to the Browserbase init, nor could it be found in the BROWSERBASE_API_KEY environment variable."

/-- Message raised when the explicit `project_id` parameter fails UUID
validation (`core.py`). It names the parameter as the source. -/
def invalid_project_id_parameter_message : String :=
  "The UUID from the project_id parameter is invalid."

/-- Message raised when no project id is resolvable (`core.py`). -/
def missing_project_id_message : String :=
  "The Browserbase project ID was not passed to the Browserbase init, nor could it be found in the BROWSERBASE_PROJECT_ID environment variable."

/-- Message raised when the environment-sourced project id fails UUID
validation (`core.py`). It names the environment variable as the source. -/
def invalid_project_id_environment_message : String :=
  "The UUID from the BROWSERBASE_PROJECT_ID environment variable is invalid."

/-- Configuration failure raised during construction. The Python code
raises `ValueError`; the spec names this error kind `ConfigurationError`. -/
structure ConfigurationError where
  message : String
  deriving DecidableEq, Repr

/-- The resolved, validated credentials held by `BrowserbaseCore`. -/
structure BrowserbaseCore where
  api_key : String
  project_id_value : String
  deriving DecidableEq, Repr

/-- Property `BrowserbaseCore.project_id`. The backing field is always a
string once construction succeeded, so the `None` guard in the Python
property is unreachable and the getter returns the stored value. -/
def BrowserbaseCore.project_id (b : BrowserbaseCore) : String :=
  b.project_id_value

/-- Classmethod `BrowserbaseCore._get_the_settings`: resolves the API key
and project id from explicit arguments, falling back to the
`BROWSERBASE_API_KEY` / `BROWSERBASE_PROJECT_ID` environment variables
(modelled as the two `env_` arguments), and validates the project id as
a UUID, with the error message naming where the bad value came from. -/
def BrowserbaseCore.get_the_settings
    (api_key project_id env_api_key env_project_id : Option String) :
    Except ConfigurationError (String × String) :=
  let api_key := py_or api_key env_api_key
  if !py_truthy api_key then
    .error ⟨missing_api_key_message⟩
  else if py_truthy project_id then
    if uuid_ok (project_id.getD "") then
      .ok (api_key.getD "", project_id.getD "")
    else
      .error ⟨invalid_project_id_parameter_message⟩
  else
    match env_project_id with
    | none => .error ⟨missing_project_id_message⟩
    | some p =>
      if p.isEmpty then
        .error ⟨missing_project_id_message⟩
      else if uuid_ok p then
        .ok (api_key.getD "", p)
      else
        .error ⟨invalid_project_id_environment_message⟩

/-- Constructor `BrowserbaseCore.__init__`: stores the settings resolved
by `_get_the_settings`, or propagates its configuration failure. -/
def BrowserbaseCore.init
    (api_key project_id env_api_key env_project_id : Option String) :
    Except ConfigurationError BrowserbaseCore :=
  (BrowserbaseCore.get_the_settings api_key project_id env_api_key env_project_id).map
    fun p => ⟨p.1, p.2⟩

/-- The project id the Configuration Resolver settles on: the explicit
parameter when truthy, else the environment value when truthy, else
nothing. Used to state which source a resolved project id came from. -/
def resolve_project_id (project_id env_project_id : Option String) : Option String :=
  if py_truthy project_id then project_id
  else if py_truthy env_project_id then env_project_id
  else none

/-- The mutable state of a `BaseSession` object (`base_session.py`):
the owning client, the optional server record `_api_response`, the
outbound `_session_options`, the `_enable_proxy` flag, and the
`_implicit_end` flag. -/
structure SessionState where
  browserbase : BrowserbaseCore
  api_response : Option SessionResponse
  session_options : CreateSessionOptions
  enable_proxy : Bool
  implicit_end_flag : Bool
  deriving DecidableEq, Repr

/-- Constructor `BaseSession.__init__`: stores the client, defaults the
options to a fresh `CreateSessionOptions()`, and unconditionally
overwrites their `project_id` with the client's resolved project id. -/
def BaseSession.init
    (bbase : BrowserbaseCore)
    (session_options : Option CreateSessionOptions)
    (enable_proxy : Bool) : SessionState :=
  let opts := session_options.getD
    (CreateSessionOptions.init none none none none none none none none)
  { browserbase := bbase
    api_response := none
    session_options := { opts with project_id := some bbase.project_id }
    enable_proxy := enable_proxy
    implicit_end_flag := false }

/-- Classmethod `BaseSession.from_api_response`: builds a fresh session
and installs an already-parsed server record. -/
def BaseSession.from_api_response
    (bbase : BrowserbaseCore) (response : SessionResponse) : SessionState :=
  let s := BaseSession.init bbase none false
  { s with api_response := some response }

/-- Property `BaseSession.id`. -/
def SessionState.id (s : SessionState) : String :=
  match s.api_response with
  | none => ""
  | some r => r.id

/-- Property `BaseSession.created_at`. -/
def SessionState.created_at (s : SessionState) : Datetime :=
  match s.api_response with
  | none => datetime_min
  | some r => r.created_at

/-- Property `BaseSession.started_at`. -/
def SessionState.started_at (s : SessionState) : Option Datetime :=
  match s.api_response with
  | none => none
  | some r => some r.started_at

/-- Property `BaseSession.ended_at`. -/
def SessionState.ended_at (s : SessionState) : Option Datetime :=
  match s.api_response with
  | none => none
  | some r => r.ended_at

/-- Property `BaseSession.duration`: difference of the two timestamps
when both are present (a `timedelta`, in seconds here), else absent. -/
def SessionState.duration (s : SessionState) : Option Int :=
  match s.started_at, s.ended_at with
  | some st, some en => some (en - st)
  | _, _ => none

/-- Property `BaseSession.expires_at`. -/
def SessionState.expires_at (s : SessionState) : Option Datetime :=
  match s.api_response with
  | none => none
  | some r => r.expires_at

/-- Property `BaseSession.status`. -/
def SessionState.status (s : SessionState) : Option SessionStatus :=
  match s.api_response with
  | none => none
  | some r => r.status

/-- Method `BaseSession._check_expiration`: the `datetime.now()` call is
modelled by the explicit `now` argument. The Python body sets the flag
when `self.expires_at is not None and self.expires_at >= datetime.now()`,
i.e. when the expiry timestamp is at or after the current clock. -/
def SessionState.check_expiration (s : SessionState) (now : Datetime) : SessionState :=
  match s.expires_at with
  | some e => if e ≥ now then { s with implicit_end_flag := true } else s
  | none => s

/-- Property getter `BaseSession.implicit_end`: returns the flag if
already set, otherwise runs `_check_expiration` and returns the possibly
updated flag, together with the updated state. -/
def SessionState.implicit_end (s : SessionState) (now : Datetime) : Bool × SessionState :=
  if s.implicit_end_flag then
    (true, s)
  else
    let s2 := s.check_expiration now
    (s2.implicit_end_flag, s2)

/-- Property setter `BaseSession.implicit_end`: caller override. -/
def SessionState.set_implicit_end (s : SessionState) (value : Bool) : SessionState :=
  { s with implicit_end_flag := value }

/-- Outcome of one HTTP round trip as the session code observes it:
either `raise_for_status` raises (any non-success status), or a body is
returned which pydantic parses into a `SessionResponse` or fails to. -/
inductive HttpResult where
  | transport_error
  | success (parsed : Option SessionResponse)
  deriving DecidableEq, Repr

/-- Failure of a start/end call: a transport (HTTP status) error from
`raise_for_status`, or a pydantic validation error on the body. -/
inductive RequestError where
  | transport_error
  | parse_error
  deriving DecidableEq, Repr

/-- Result of a `start()` call: the session state afterwards, the JSON
body POSTed to the create endpoint when a network request was issued
(`none` when no request was made), and the returned id or the raised
error. -/
structure StartResult where
  state : SessionState
  request : Option CreateSessionOptions
  outcome : Except RequestError String
  deriving Repr

/-- Result of an `end()` call, analogous to `StartResult`. -/
structure EndResult where
  state : SessionState
  request : Option CreateSessionOptions
  outcome : Except RequestError Unit
  deriving Repr

/-- Method `SyncSession.start` (`sync_session.py`): no-op returning the
existing id when a record is present; otherwise POSTs the session
options, raises on transport failure, parses the body, and replaces the
record wholesale with the parsed response before returning the new id. -/
def SyncSession.start (s : SessionState) (wire : HttpResult) : StartResult :=
  match s.api_response with
  | some _ => { state := s, request := none, outcome := .ok s.id }
  | none =>
    match wire with
    | .transport_error =>
      { state := s, request := some s.session_options
        outcome := .error .transport_error }
    | .success none =>
      { state := s, request := some s.session_options
        outcome := .error .parse_error }
    | .success (some r) =>
      let s2 := { s with api_response := some r }
      { state := s2, request := some s.session_options, outcome := .ok s2.id }

/-- Helper property `BaseSession._end_session_options`: the body of a
release call, `CreateSessionOptions(project_id=..., status="REQUEST_RELEASE")`. -/
def SessionState.end_session_options (s : SessionState) : CreateSessionOptions :=
  CreateSessionOptions.init none none none
    (some s.browserbase.project_id) none none none (some .REQUEST_RELEASE)

/-- Method `SyncSession.end` (`sync_session.py`): logs and returns when
no record is present; otherwise POSTs the release options to the
session endpoint, raises on transport failure, parses the body, and
replaces the record wholesale with the parsed response. -/
def SyncSession.end_session (s : SessionState) (wire : HttpResult) : EndResult :=
  match s.api_response with
  | none => { state := s, request := none, outcome := .ok () }
  | some _ =>
    match wire with
    | .transport_error =>
      { state := s, request := some s.end_session_options
        outcome := .error .transport_error }
    | .success none =>
      { state := s, request := some s.end_session_options
        outcome := .error .parse_error }
    | .success (some r) =>
      { state := { s with api_response := some r }
        request := some s.end_session_options, outcome := .ok () }

/-- Method `AsyncSession.start` (`async_session.py`): identical control
flow to `SyncSession.start` with the suspension call style. -/
def AsyncSession.start (s : SessionState) (wire : HttpResult) : StartResult :=
  match s.api_response with
  | some _ => { state := s, request := none, outcome := .ok s.id }
  | none =>
    match wire with
    | .transport_error =>
      { state := s, request := some s.session_options
        outcome := .error .transport_error }
    | .success none =>
      { state := s, request := some s.session_options
        outcome := .error .parse_error }
    | .success (some r) =>
      let s2 := { s with api_response := some r }
      { state := s2, request := some s.session_options, outcome := .ok s2.id }

/-- Method `AsyncSession.end` (`async_session.py`): identical control
flow to `SyncSession.end` with the suspension call style; its body is
`self._end_session_options.model_dump()`. -/
def AsyncSession.end_session (s : SessionState) (wire : HttpResult) : EndResult :=
  match s.api_response with
  | none => { state := s, request := none, outcome := .ok () }
  | some _ =>
    match wire with
    | .transport_error =>
      { state := s, request := some s.end_session_options
        outcome := .error .transport_error }
    | .success none =>
      { state := s, request := some s.end_session_options
        outcome := .error .parse_error }
    | .success (some r) =>
      { state := { s with api_response := some r }
        request := some s.end_session_options, outcome := .ok () }

/-- Error propagating out of a scoped-session block: the failed entry
`start()`, an exception raised by the enclosed scope (an opaque tag), or
the failed exit `end()` (which masks any in-flight scope error, as the
`finally` clause does in Python). -/
inductive ScopeError where
  | start_error (e : RequestError)
  | body_error (tag : Nat)
  | end_error (e : RequestError)
  deriving DecidableEq, Repr

/-- Observable trace of one scoped-session execution: the final session
state, how many create requests went out, how many `end()` method
invocations happened, how many release network requests went out, and
what the scope as a whole returned or raised. -/
structure ManagerResult where
  state : SessionState
  start_requests : Nat
  end_invocations : Nat
  end_requests : Nat
  outcome : Except ScopeError Unit
  deriving Repr

/-- Counts the network requests recorded by one start/end call. -/
def req_count (r : Option CreateSessionOptions) : Nat :=
  match r with
  | none => 0
  | some _ => 1

/-- The `finally` clause of `BrowserbaseCore._session_manager`: reads
`implicit_end` once (which may set the flag via `_check_expiration`);
when it is false, calls `end()`, whose failure propagates and replaces
any error raised in the enclosed scope; when it is true, no `end()`
call is made and the scope outcome stands. -/
def BrowserbaseCore.session_manager_finally
    (s : SessionState) (now : Datetime)
    (body : Except Nat Unit) (end_wire : HttpResult) : ManagerResult :=
  let check := s.implicit_end now
  if check.1 then
    { state := check.2, start_requests := 0, end_invocations := 0
      end_requests := 0, outcome := body.mapError ScopeError.body_error }
  else
    let r := SyncSession.end_session check.2 end_wire
    match r.outcome with
    | .error e =>
      { state := r.state, start_requests := 0, end_invocations := 1
        end_requests := req_count r.request, outcome := .error (.end_error e) }
    | .ok _ =>
      { state := r.state, start_requests := 0, end_invocations := 1
        end_requests := req_count r.request
        outcome := body.mapError ScopeError.body_error }

/-- Context manager `BrowserbaseCore._session_manager`: calls `start()`
before the `try` block, so a start failure propagates without reaching
the `finally` clause; otherwise runs the enclosed scope (modelled as an
arbitrary state transformer that finishes normally or raises) and then
the `finally` clause above. `_asession_manager` is the same control
flow in the suspension call style. -/
def BrowserbaseCore.session_manager
    (s : SessionState) (now : Datetime) (start_wire : HttpResult)
    (body : SessionState → SessionState × Except Nat Unit)
    (end_wire : HttpResult) : ManagerResult :=
  let st := SyncSession.start s start_wire
  match st.outcome with
  | .error e =>
    { state := st.state, start_requests := req_count st.request
      end_invocations := 0, end_requests := 0
      outcome := .error (.start_error e) }
  | .ok _ =>
    let stepped := body st.state
    let fin := BrowserbaseCore.session_manager_finally
      stepped.1 now stepped.2 end_wire
    { fin with start_requests := req_count st.request }

/-- Programmer-misuse failure on the driver/page handles. The Python
code raises `RuntimeError`; the spec names this error kind `StateError`. -/
structure StateError where
  message : String
  deriving DecidableEq, Repr

/-- Property getter `PlaywrightSessionMixin.page` (`pl_session.py`):
fails when no page has been attached. -/
def PlaywrightSessionMixin.page_get {P : Type} (page : Option P) : Except StateError P :=
  match page with
  | none => .error ⟨"session.page has not been set."⟩
  | some p => .ok p

/-- Property setter `PlaywrightSessionMixin.page` (`pl_session.py`):
fails when a page is already attached, otherwise stores the new page. -/
def PlaywrightSessionMixin.page_set {P : Type} (page : Option P) (new_page : P) :
    Except StateError (Option P) :=
  match page with
  | some _ => .error ⟨"Attempt to reassign session.page"⟩
  | none => .ok (some new_page)

/-- Property getter `SeleniumSession.driver` (`sl_session.py`):
fails when no driver has been attached. -/
def SeleniumSession.driver_get {D : Type} (driver : Option D) : Except StateError D :=
  match driver with
  | none => .error ⟨"session.driver has not been set."⟩
  | some d => .ok d

/-- Property setter `SeleniumSession.driver` (`sl_session.py`):
fails when a driver is already attached, otherwise stores it. -/
def SeleniumSession.driver_set {D : Type} (driver : Option D) (new_driver : D) :
    Except StateError (Option D) :=
  match driver with
  | some _ => .error ⟨"Attempt to reassign session.driver"⟩
  | none => .ok (some new_driver)

/-- JSON values produced by `model_dump` on the outbound models. -/
inductive Json where
  | str (s : String)
  | num (n : Int)
  | boolean (b : Bool)
  | obj (members : List (String × Json))
  | arr (elements : List Json)

/-- Wire spelling of a session status literal. -/
def SessionStatus.wire : SessionStatus → String
  | .NEW => "NEW"
  | .CREATED => "CREATED"
  | .ERROR => "ERROR"
  | .RUNNING => "RUNNING"
  | .REQUEST_RELEASE => "REQUEST_RELEASE"
  | .RELEASING => "RELEASING"
  | .COMPLETED => "COMPLETED"
  | .TIMED_OUT => "TIMED_OUT"

/-- Wire spelling of a browser type literal. -/
def BrowserType.wire : BrowserType → String
  | .chrome => "chrome"
  | .firefox => "firefox"
  | .edge => "edge"
  | .safari => "safari"

/-- Wire spelling of a device type literal. -/
def DeviceType.wire : DeviceType → String
  | .desktop => "desktop"
  | .mobile => "mobile"

/-- Wire spelling of an operating system literal. -/
def OperatingSystem.wire : OperatingSystem → String
  | .windows => "windows"
  | .macos => "macos"
  | .linux => "linux"
  | .ios => "ios"
  | .android => "android"

/-- One member of a dumped object: present under its lower-camel-case
key when the field is set, omitted otherwise. This models the
`by_alias=True, exclude_unset=True, exclude_none=True` defaults that
`BaseSchema.model_dump` passes to pydantic: a field appears in the
output exactly when it holds a value. -/
def opt_member (key : String) (v : Option Json) : List (String × Json) :=
  match v with
  | none => []
  | some j => [(key, j)]

/-- Dump of `api_models.Screen`. -/
def Screen.model_dump (s : Screen) : Json :=
  .obj (opt_member "maxHeight" (s.max_height.map .num)
    ++ opt_member "maxWidth" (s.max_width.map .num)
    ++ opt_member "minHeight" (s.min_height.map .num)
    ++ opt_member "minWidth" (s.min_width.map .num))

/-- Dump of `api_models.Fingerprint`. -/
def Fingerprint.model_dump (f : Fingerprint) : Json :=
  .obj (opt_member "browserListQuery" (f.browser_list_query.map .str)
    ++ opt_member "httpVersion" (f.http_version.map .num)
    ++ opt_member "browsers"
      (f.browsers.map fun l => .arr (l.map fun b => .str b.wire))
    ++ opt_member "devices"
      (f.devices.map fun l => .arr (l.map fun d => .str d.wire))
    ++ opt_member "locales"
      (f.locales.map fun l => .arr (l.map Json.str))
    ++ opt_member "operatingSystems"
      (f.operating_systems.map fun l => .arr (l.map fun o => .str o.wire))
    ++ opt_member "screen" (f.screen.map Screen.model_dump))

/-- Dump of `api_models.Viewport`. -/
def Viewport.model_dump (v : Viewport) : Json :=
  .obj (opt_member "width" (v.width.map .num)
    ++ opt_member "height" (v.height.map .num))

/-- Members of the dumped `api_models.BrowserSettings` object. -/
def BrowserSettings.dump_members (b : BrowserSettings) : List (String × Json) :=
  opt_member "fingerprint" (b.fingerprint.map Fingerprint.model_dump)
    ++ opt_member "viewport" (b.viewport.map Viewport.model_dump)

/-- Dump of `api_models.BrowserSettings`. -/
def BrowserSettings.model_dump (b : BrowserSettings) : Json :=
  .obj b.dump_members

/-- Members of the dumped `api_models.CreateSessionOptions` object. -/
def CreateSessionOptions.dump_members (o : CreateSessionOptions) : List (String × Json) :=
  opt_member "projectId" (o.project_id.map .str)
    ++ opt_member "extensionId" (o.extension_id.map .str)
    ++ opt_member "browserSettings" (o.browser_settings.map BrowserSettings.model_dump)
    ++ opt_member "timeout" (o.timeout.map .num)
    ++ opt_member "keepAlive" (o.keep_alive.map .boolean)
    ++ opt_member "status" (o.status.map fun st => .str st.wire)

/-- Dump of `api_models.CreateSessionOptions`, the JSON body of a
create/release call. -/
def CreateSessionOptions.model_dump (o : CreateSessionOptions) : Json :=
  .obj o.dump_members

/-- Top-level keys present in the serialized options. -/
def CreateSessionOptions.dump_keys (o : CreateSessionOptions) : List String :=
  o.dump_members.map Prod.fst

/-!
Concrete fixtures used to evaluate the theorems on closed inputs, with
the same shape as the values in the repository test suite.
-/

/-- A concrete, validly configured client. -/
def ex_core : BrowserbaseCore :=
  { api_key := "mock-api-key-12345"
    project_id_value := "11111111-0000-0000-0000-acde00000000" }

/-- A concrete server response: running, not ended, no expiry. -/
def ex_response : SessionResponse :=
  { id := "22222222-0000-0000-0000-acde00000000"
    project_id := "11111111-0000-0000-0000-acde00000000"
    created_at := 50
    started_at := 100
    status := some .RUNNING }

/-- The concrete response with an end timestamp 1200 seconds after the
start timestamp. -/
def ex_response_ended : SessionResponse :=
  { ex_response with ended_at := some 1300 }

/-- The concrete response with an expiry timestamp. -/
def ex_response_expiring : SessionResponse :=
  { ex_response with expires_at := some 100 }

/-- A freshly constructed, unstarted session. -/
def ex_session : SessionState :=
  BaseSession.init ex_core none false

/-- A session already holding a server record. -/
def ex_session_started : SessionState :=
  BaseSession.from_api_response ex_core ex_response

/-- Every start/end call records at most one network request. -/
theorem req_count_le_one (r : Option CreateSessionOptions) : req_count r ≤ 1 := by
  cases r <;> simp [req_count]

/-- C1: the claim states that `implicit_end` becomes true exactly when
the flag was already set or the local clock is past `expires-at`.
`BaseSession._check_expiration` instead sets the flag when
`expires_at >= datetime.now()`, i.e. while the session has NOT yet
expired, contradicting its own docstring. On a record expiring at time
100 with the flag unset, reading `implicit_end` at time 50 (before
expiry) yields `true`, and reading it at time 200 (after expiry) yields
`false` — the negation of the claimed behaviour in both directions. -/
theorem C1_implicit_end_clock_comparison_bug :
    (BaseSession.from_api_response ex_core ex_response_expiring).implicit_end_flag = false ∧
    (BaseSession.from_api_response ex_core ex_response_expiring).expires_at = some 100 ∧
    ((BaseSession.from_api_response ex_core ex_response_expiring).implicit_end 50).1 = true ∧
    ((BaseSession.from_api_response ex_core ex_response_expiring).implicit_end 200).1 = false :=
  ⟨rfl, rfl, by decide, by decide⟩

/-- C5: reading an unattached page or driver handle fails with a
`StateError`, a first assignment succeeds, and a second assignment to
an already-set handle fails with a `StateError`, for both the
Playwright page handle and the Selenium driver handle. -/
theorem C5_handle_single_assignment (P D : Type) (p q : P) (d e : D) :
    PlaywrightSessionMixin.page_get (none : Option P) =
      .error ⟨"session.page has not been set."⟩ ∧
    PlaywrightSessionMixin.page_set (none : Option P) p = .ok (some p) ∧
    PlaywrightSessionMixin.page_set (some q) p =
      .error ⟨"Attempt to reassign session.page"⟩ ∧
    SeleniumSession.driver_get (none : Option D) =
      .error ⟨"session.driver has not been set."⟩ ∧
    SeleniumSession.driver_set (none : Option D) d = .ok (some d) ∧
    SeleniumSession.driver_set (some e) d =
      .error ⟨"Attempt to reassign session.driver"⟩ :=
  ⟨rfl, rfl, rfl, rfl, rfl, rfl⟩

/-- C6: when a server record is already present, `start()` — sync or
async — is a no-op: the session state (and hence the record) is
unchanged, no network request is issued, and the existing id is
returned. -/
theorem C6_start_noop_when_record_present
    (s : SessionState) (wire : HttpResult) (r : SessionResponse)
    (h : s.api_response = some r) :
    SyncSession.start s wire =
      { state := s, request := none, outcome := .ok s.id } ∧
    AsyncSession.start s wire =
      { state := s, request := none, outcome := .ok s.id } := by
  constructor <;> simp [SyncSession.start, AsyncSession.start, h]

/-- Closed instance of the C6 theorem on a session holding a record. -/
theorem C6_start_noop_when_record_present_witness :
    SyncSession.start ex_session_started .transport_error =
      { state := ex_session_started, request := none
        outcome := .ok ex_session_started.id } ∧
    AsyncSession.start ex_session_started .transport_error =
      { state := ex_session_started, request := none
        outcome := .ok ex_session_started.id } :=
  C6_start_noop_when_record_present ex_session_started .transport_error ex_response rfl

/-- C8: a session whose record is absent yields every sentinel: empty
id, minimum created-at, and absent started-at, ended-at, expires-at,
status and duration. -/
theorem C8_unstarted_session_sentinels (s : SessionState)
    (h : s.api_response = none) :
    s.id = "" ∧ s.created_at = datetime_min ∧ s.started_at = none ∧
    s.ended_at = none ∧ s.expires_at = none ∧ s.status = none ∧
    s.duration = none := by
  simp [SessionState.id, SessionState.created_at, SessionState.started_at,
    SessionState.ended_at, SessionState.expires_at, SessionState.status,
    SessionState.duration, h]

/-- Closed instance of the C8 theorem on a freshly built session. -/
theorem C8_unstarted_session_sentinels_witness :
    ex_session.id = "" ∧ ex_session.created_at = datetime_min ∧
    ex_session.started_at = none ∧ ex_session.ended_at = none ∧
    ex_session.expires_at = none ∧ ex_session.status = none ∧
    ex_session.duration = none :=
  C8_unstarted_session_sentinels ex_session rfl

/-- C9: `duration` is ended-at minus started-at when both accessors
yield a value and absent when either is missing; in particular a record
whose end timestamp is 1200 seconds after its start timestamp yields a
duration of exactly 1200 seconds. -/
theorem C9_duration_difference (s : SessionState) (b : BrowserbaseCore)
    (r : SessionResponse) (t0 : Datetime)
    (hs : r.started_at = t0) (he : r.ended_at = some (t0 + 1200)) :
    (∀ st en, s.started_at = some st → s.ended_at = some en →
      s.duration = some (en - st)) ∧
    (s.started_at = none ∨ s.ended_at = none → s.duration = none) ∧
    (BaseSession.from_api_response b r).duration = some 1200 := by
  refine ⟨?_, ?_, ?_⟩
  · intro st en h1 h2
    simp [SessionState.duration, h1, h2]
  · intro h
    rcases h with h | h <;>
      cases h2 : s.started_at <;> simp_all [SessionState.duration]
  · simp [BaseSession.from_api_response, BaseSession.init,
      SessionState.duration, SessionState.started_at, SessionState.ended_at,
      hs, he]

/-- Closed instance of the C9 theorem on the concrete ended response. -/
theorem C9_duration_difference_witness :
    (BaseSession.from_api_response ex_core ex_response_ended).duration = some 1200 :=
  (C9_duration_difference ex_session ex_core ex_response_ended 100 rfl rfl).2.2

/-- C4: every start/end network call either replaces the stored record
wholesale with the parsed response (on success) or leaves it completely
unchanged (on transport failure or parse failure), for the sync and
async variants alike. The two hypotheses select the states in which the
respective operation actually issues its call. -/
theorem C4_record_wholesale_replacement (s : SessionState) (r r0 : SessionResponse) :
    (SyncSession.start s .transport_error).state.api_response = s.api_response ∧
    (SyncSession.start s (.success none)).state.api_response = s.api_response ∧
    (s.api_response = none →
      (SyncSession.start s (.success (some r))).state.api_response = some r) ∧
    (SyncSession.end_session s .transport_error).state.api_response = s.api_response ∧
    (SyncSession.end_session s (.success none)).state.api_response = s.api_response ∧
    (s.api_response = some r0 →
      (SyncSession.end_session s (.success (some r))).state.api_response = some r) ∧
    (AsyncSession.start s .transport_error).state.api_response = s.api_response ∧
    (AsyncSession.start s (.success none)).state.api_response = s.api_response ∧
    (s.api_response = none →
      (AsyncSession.start s (.success (some r))).state.api_response = some r) ∧
    (AsyncSession.end_session s .transport_error).state.api_response = s.api_response ∧
    (AsyncSession.end_session s (.success none)).state.api_response = s.api_response ∧
    (s.api_response = some r0 →
      (AsyncSession.end_session s (.success (some r))).state.api_response = some r) := by
  cases h : s.api_response <;>
    simp [SyncSession.start, AsyncSession.start, SyncSession.end_session,
      AsyncSession.end_session, h]

/-- Closed instance of the C4 theorem: a failed start leaves the absent
record absent, a successful start installs the full response, and a
successful end on a started session replaces the full record. -/
theorem C4_record_wholesale_replacement_witness :
    (SyncSession.start ex_session .transport_error).state.api_response = none ∧
    (SyncSession.start ex_session (.success (some ex_response))).state.api_response =
      some ex_response ∧
    (SyncSession.end_session ex_session_started
      (.success (some ex_response_ended))).state.api_response =
      some ex_response_ended :=
  ⟨((C4_record_wholesale_replacement ex_session ex_response ex_response).1).trans rfl,
   (C4_record_wholesale_replacement ex_session ex_response ex_response).2.2.1 rfl,
   (C4_record_wholesale_replacement ex_session_started ex_response_ended
      ex_response).2.2.2.2.2.1 rfl⟩

/-- The `finally` clause of the scoped manager issues at most one
release network request. -/
theorem finally_end_requests_le_one (s : SessionState) (now : Datetime)
    (b : Except Nat Unit) (w : HttpResult) :
    (BrowserbaseCore.session_manager_finally s now b w).end_requests ≤ 1 := by
  simp only [BrowserbaseCore.session_manager_finally]
  split
  · simp
  · split <;> simp [req_count_le_one]

/-- C2: on scope exit the manager reads `implicit_end` once; when it
reads false exactly one `end()` invocation happens and its failure
propagates as the scope outcome, when it reads true no `end()`
invocation and no release request happen and the scope outcome stands;
and a whole scoped execution — including the entry `start()` — issues
at most one release network request. -/
theorem C2_scoped_manager_end_policy
    (s : SessionState) (now : Datetime) (body_outcome : Except Nat Unit)
    (start_wire end_wire : HttpResult)
    (body : SessionState → SessionState × Except Nat Unit) :
    ((s.implicit_end now).1 = false →
      (BrowserbaseCore.session_manager_finally s now body_outcome end_wire).end_invocations = 1) ∧
    ((s.implicit_end now).1 = true →
      (BrowserbaseCore.session_manager_finally s now body_outcome end_wire).end_invocations = 0 ∧
      (BrowserbaseCore.session_manager_finally s now body_outcome end_wire).end_requests = 0 ∧
      (BrowserbaseCore.session_manager_finally s now body_outcome end_wire).outcome =
        body_outcome.mapError ScopeError.body_error) ∧
    (BrowserbaseCore.session_manager_finally s now body_outcome end_wire).end_requests ≤ 1 ∧
    (BrowserbaseCore.session_manager s now start_wire body end_wire).end_requests ≤ 1 ∧
    (∀ e, (s.implicit_end now).1 = false →
      (SyncSession.end_session (s.implicit_end now).2 end_wire).outcome = .error e →
      (BrowserbaseCore.session_manager_finally s now body_outcome end_wire).outcome =
        .error (.end_error e)) := by
  refine ⟨?_, ?_, ?_, ?_, ?_⟩
  · intro h
    simp only [BrowserbaseCore.session_manager_finally, h, Bool.false_eq_true,
      if_false]
    split <;> rfl
  · intro h
    simp [BrowserbaseCore.session_manager_finally, h]
  · exact finally_end_requests_le_one s now body_outcome end_wire
  · simp only [BrowserbaseCore.session_manager]
    split
    · simp
    · simp [finally_end_requests_le_one]
  · intro e h hout
    simp only [BrowserbaseCore.session_manager_finally, h, Bool.false_eq_true,
      if_false, hout]

/-- Closed instance of the C2 theorem: on a started session with the
flag clear the exit makes exactly one end invocation; with the flag set
it makes none; and a transport failure of the release call becomes the
scope outcome. -/
theorem C2_scoped_manager_end_policy_witness :
    (BrowserbaseCore.session_manager_finally ex_session_started 0 (.ok ())
      (.success (some ex_response))).end_invocations = 1 ∧
    (BrowserbaseCore.session_manager_finally (ex_session_started.set_implicit_end true) 0
      (.ok ()) (.success (some ex_response))).end_invocations = 0 ∧
    (BrowserbaseCore.session_manager_finally ex_session_started 0 (.ok ())
      .transport_error).outcome = .error (.end_error .transport_error) :=
  ⟨(C2_scoped_manager_end_policy ex_session_started 0 (.ok ()) .transport_error
      (.success (some ex_response)) (fun t => (t, .ok ()))).1 rfl,
   ((C2_scoped_manager_end_policy (ex_session_started.set_implicit_end true) 0 (.ok ())
      .transport_error (.success (some ex_response)) (fun t => (t, .ok ()))).2.1 rfl).1,
   (C2_scoped_manager_end_policy ex_session_started 0 (.ok ()) .transport_error
      .transport_error (fun t => (t, .ok ()))).2.2.2.2 .transport_error rfl rfl⟩

/-- C3: construction succeeds exactly when an API key is resolvable and
the resolved project id is a valid UUID, in which case the `project_id`
getter returns the resolved value; it fails with a configuration error
when no API key is resolvable, when no project id is resolvable, or
when the resolved project id is not a valid UUID — and in the
invalid-UUID case the error message names the source of the bad value:
the explicit parameter or the environment variable. -/
theorem C3_configuration_resolution
    (api_key project_id env_api_key env_project_id : Option String) :
    (py_truthy (py_or api_key env_api_key) = false →
      BrowserbaseCore.init api_key project_id env_api_key env_project_id =
        .error ⟨missing_api_key_message⟩) ∧
    (∀ s, py_truthy (py_or api_key env_api_key) = true →
      resolve_project_id project_id env_project_id = some s →
      uuid_ok s = true →
      BrowserbaseCore.init api_key project_id env_api_key env_project_id =
        .ok ⟨(py_or api_key env_api_key).getD "", s⟩ ∧
      BrowserbaseCore.project_id ⟨(py_or api_key env_api_key).getD "", s⟩ = s) ∧
    (py_truthy (py_or api_key env_api_key) = true →
      resolve_project_id project_id env_project_id = none →
      BrowserbaseCore.init api_key project_id env_api_key env_project_id =
        .error ⟨missing_project_id_message⟩) ∧
    (py_truthy (py_or api_key env_api_key) = true →
      py_truthy project_id = true →
      uuid_ok (project_id.getD "") = false →
      BrowserbaseCore.init api_key project_id env_api_key env_project_id =
        .error ⟨invalid_project_id_parameter_message⟩) ∧
    (∀ p, py_truthy (py_or api_key env_api_key) = true →
      py_truthy project_id = false →
      env_project_id = some p → p.isEmpty = false → uuid_ok p = false →
      BrowserbaseCore.init api_key project_id env_api_key env_project_id =
        .error ⟨invalid_project_id_environment_message⟩) := by
  refine ⟨?_, ?_, ?_, ?_, ?_⟩
  · intro h
    simp [BrowserbaseCore.init, BrowserbaseCore.get_the_settings, Except.map, h]
  · intro s hk hres huuid
    by_cases hp : py_truthy project_id = true
    · simp only [resolve_project_id, hp, if_true] at hres
      subst hres
      constructor
      · simp [BrowserbaseCore.init, BrowserbaseCore.get_the_settings, Except.map, hk, hp, huuid]
      · rfl
    · simp only [resolve_project_id, hp, Bool.not_eq_true, if_false] at hres
      rw [if_neg (by simp [hp])] at hres
      by_cases he : py_truthy env_project_id = true
      · rw [if_pos he] at hres
        subst hres
        have hne : s.isEmpty = false := by
          simpa [py_truthy] using he
        constructor
        · simp [BrowserbaseCore.init, BrowserbaseCore.get_the_settings, Except.map, hk,
            hp, hne, huuid]
        · rfl
      · rw [if_neg he] at hres
        exact absurd hres (by simp)
  · intro hk hres
    by_cases hp : py_truthy project_id = true
    · simp [resolve_project_id, hp] at hres
      simp [py_truthy] at hp
      rcases project_id with _ | p
      · simp at hp
      · simp at hres
    · cases henv : env_project_id with
      | none =>
        simp [BrowserbaseCore.init, BrowserbaseCore.get_the_settings, Except.map, hk, hp, henv]
      | some p =>
        have hpe : p.isEmpty = true := by
          simp only [resolve_project_id, hp, Bool.not_eq_true, if_false] at hres
          rw [if_neg (by simp [hp])] at hres
          by_cases he : py_truthy env_project_id = true
          · rw [if_pos he] at hres
            simp [henv] at hres
          · simpa [py_truthy, henv] using he
        simp [BrowserbaseCore.init, BrowserbaseCore.get_the_settings, Except.map, hk, hp,
          henv, hpe]
  · intro hk hp huuid
    simp [BrowserbaseCore.init, BrowserbaseCore.get_the_settings, Except.map, hk, hp, huuid]
  · intro p hk hp henv hne huuid
    simp [BrowserbaseCore.init, BrowserbaseCore.get_the_settings, Except.map, hk, hp, henv,
      hne, huuid]

/-- Closed instance of the C3 theorem: a valid pair constructs the
client and the getter returns the project id; a malformed explicit
project id fails with the parameter-naming message; a malformed
environment project id fails with the environment-naming message; a
missing API key and a missing project id fail with their messages. -/
theorem C3_configuration_resolution_witness :
    BrowserbaseCore.init (some "mock-api-key-12345")
      (some "11111111-0000-0000-0000-acde00000000") none none = .ok ex_core ∧
    BrowserbaseCore.project_id ex_core = "11111111-0000-0000-0000-acde00000000" ∧
    BrowserbaseCore.init (some "mock-api-key-12345") (some "not-a-UUID") none none =
      .error ⟨invalid_project_id_parameter_message⟩ ∧
    BrowserbaseCore.init (some "mock-api-key-12345") none none (some "not-a-UUID") =
      .error ⟨invalid_project_id_environment_message⟩ ∧
    BrowserbaseCore.init none none none none = .error ⟨missing_api_key_message⟩ ∧
    BrowserbaseCore.init (some "mock-api-key-12345") none none none =
      .error ⟨missing_project_id_message⟩ :=
  ⟨((C3_configuration_resolution (some "mock-api-key-12345")
      (some "11111111-0000-0000-0000-acde00000000") none none).2.1
      "11111111-0000-0000-0000-acde00000000" rfl rfl (by decide)).1,
   ((C3_configuration_resolution (some "mock-api-key-12345")
      (some "11111111-0000-0000-0000-acde00000000") none none).2.1
      "11111111-0000-0000-0000-acde00000000" rfl rfl (by decide)).2,
   (C3_configuration_resolution (some "mock-api-key-12345")
      (some "not-a-UUID") none none).2.2.2.1 rfl rfl (by decide),
   (C3_configuration_resolution (some "mock-api-key-12345") none none
      (some "not-a-UUID")).2.2.2.2 "not-a-UUID" rfl rfl rfl rfl (by decide),
   (C3_configuration_resolution none none none none).1 rfl,
   (C3_configuration_resolution (some "mock-api-key-12345") none none none).2.2.1
      rfl rfl⟩

/-- The serialized options never expose a top-level `viewport` or
`fingerprint` key: the model declares no such field. -/
theorem no_top_level_viewport_or_fingerprint (o : CreateSessionOptions) :
    "viewport" ∉ o.dump_keys ∧ "fingerprint" ∉ o.dump_keys := by
  obtain ⟨pid, ext, bs, tmo, ka, st⟩ := o
  cases pid <;> cases ext <;> cases bs <;> cases tmo <;> cases ka <;> cases st <;>
    simp [CreateSessionOptions.dump_keys, CreateSessionOptions.dump_members,
      opt_member]

/-- C7: for every combination of optional viewport, fingerprint and
browser-settings arguments, the constructed options carry neither a
top-level viewport nor a top-level fingerprint in their serialized
form; a supplied viewport or fingerprint is folded into the single
nested browser-settings value — merging into a supplied
browser-settings argument, overwriting only the supplied slots — and
its serialization appears inside the `browserSettings` substructure. -/
theorem C7_viewport_fingerprint_folded
    (v : Option Viewport) (f : Option Fingerprint) (bs : Option BrowserSettings)
    (pid ext : Option String) (tmo : Option Int) (ka : Option Bool)
    (st : Option SessionStatus) (o : CreateSessionOptions)
    (ho : o = CreateSessionOptions.init v f bs pid ext tmo ka st) :
    ("viewport" ∉ o.dump_keys ∧ "fingerprint" ∉ o.dump_keys) ∧
    o.browser_settings =
      (if v.isSome || f.isSome then
        some { fingerprint := if f.isSome then f else (bs.getD {}).fingerprint
               viewport := if v.isSome then v else (bs.getD {}).viewport }
      else bs) ∧
    (∀ vp, v = some vp → ∃ b, o.browser_settings = some b ∧ b.viewport = some vp ∧
      ("viewport", vp.model_dump) ∈ b.dump_members ∧
      ("browserSettings", Json.obj b.dump_members) ∈ o.dump_members) ∧
    (∀ fp, f = some fp → ∃ b, o.browser_settings = some b ∧ b.fingerprint = some fp ∧
      ("fingerprint", fp.model_dump) ∈ b.dump_members ∧
      ("browserSettings", Json.obj b.dump_members) ∈ o.dump_members) := by
  subst ho
  refine ⟨no_top_level_viewport_or_fingerprint _, ?_, ?_, ?_⟩
  · cases v <;> cases f <;> cases bs <;> simp [CreateSessionOptions.init]
  · intro vp hv
    subst hv
    cases f <;> cases bs <;>
      exact ⟨_, rfl, rfl,
        by simp [BrowserSettings.dump_members, opt_member],
        by simp [CreateSessionOptions.init, CreateSessionOptions.dump_members,
          opt_member, BrowserSettings.model_dump]⟩
  · intro fp hf
    subst hf
    cases v <;> cases bs <;>
      exact ⟨_, rfl, rfl,
        by simp [BrowserSettings.dump_members, opt_member],
        by simp [CreateSessionOptions.init, CreateSessionOptions.dump_members,
          opt_member, BrowserSettings.model_dump]⟩

/-- Closed instance of the C7 theorem: a lone viewport argument lands
inside the nested browser settings and nowhere at top level. -/
theorem C7_viewport_fingerprint_folded_witness :
    ("viewport" ∉ (CreateSessionOptions.init (some ⟨some 800, some 600⟩) none none
      none none none none none).dump_keys) ∧
    (CreateSessionOptions.init (some ⟨some 800, some 600⟩) none none
      none none none none none).browser_settings =
      some { fingerprint := none, viewport := some ⟨some 800, some 600⟩ } :=
  ⟨(C7_viewport_fingerprint_folded (some ⟨some 800, some 600⟩) none none
      none none none none none _ rfl).1.1,
   ((C7_viewport_fingerprint_folded (some ⟨some 800, some 600⟩) none none
      none none none none none _ rfl).2.1).trans rfl⟩

/-- C10: the session constructor pins the outbound options to the
client's resolved project id — both construction paths — and every
create or release request body a session can emit carries exactly that
project id. -/
theorem C10_outbound_project_id_pinned
    (b : BrowserbaseCore) (opts : Option CreateSessionOptions) (ep : Bool)
    (r : SessionResponse) (s : SessionState) (wire : HttpResult)
    (req req2 : CreateSessionOptions) :
    (BaseSession.init b opts ep).session_options.project_id = some b.project_id ∧
    (BaseSession.from_api_response b r).session_options.project_id = some b.project_id ∧
    (s.session_options.project_id = some s.browserbase.project_id →
      (SyncSession.start s wire).request = some req →
      req.project_id = some s.browserbase.project_id) ∧
    ((SyncSession.end_session s wire).request = some req2 →
      req2.project_id = some s.browserbase.project_id) ∧
    (s.session_options.project_id = some s.browserbase.project_id →
      (AsyncSession.start s wire).request = some req →
      req.project_id = some s.browserbase.project_id) ∧
    ((AsyncSession.end_session s wire).request = some req2 →
      req2.project_id = some s.browserbase.project_id) := by
  refine ⟨by simp [BaseSession.init], by simp [BaseSession.from_api_response,
    BaseSession.init], ?_, ?_, ?_, ?_⟩
  · intro hpid hreq
    cases h : s.api_response <;> rcases wire with _ | (_ | r2) <;>
      simp [SyncSession.start, h] at hreq <;> simp [← hreq, hpid]
  · intro hreq
    cases h : s.api_response <;> rcases wire with _ | (_ | r2) <;>
      simp [SyncSession.end_session, h] at hreq <;>
      simp [← hreq, SessionState.end_session_options, CreateSessionOptions.init]
  · intro hpid hreq
    cases h : s.api_response <;> rcases wire with _ | (_ | r2) <;>
      simp [AsyncSession.start, h] at hreq <;> simp [← hreq, hpid]
  · intro hreq
    cases h : s.api_response <;> rcases wire with _ | (_ | r2) <;>
      simp [AsyncSession.end_session, h] at hreq <;>
      simp [← hreq, SessionState.end_session_options, CreateSessionOptions.init]

/-- Closed instance of the C10 theorem: a fresh session carries the
client's project id, and the concrete create and release request bodies
both carry it. -/
theorem C10_outbound_project_id_pinned_witness :
    (BaseSession.init ex_core none false).session_options.project_id =
      some ex_core.project_id ∧
    ex_session.session_options.project_id =
      some ex_session.browserbase.project_id ∧
    ex_session_started.end_session_options.project_id =
      some ex_session_started.browserbase.project_id :=
  ⟨(C10_outbound_project_id_pinned ex_core none false ex_response ex_session
      .transport_error ex_session.session_options
      ex_session_started.end_session_options).1,
   (C10_outbound_project_id_pinned ex_core none false ex_response ex_session
      .transport_error ex_session.session_options
      ex_session_started.end_session_options).2.2.1 rfl rfl,
   (C10_outbound_project_id_pinned ex_core none false ex_response
      ex_session_started .transport_error ex_session.session_options
      ex_session_started.end_session_options).2.2.2.1 rfl⟩

end Browserbase
